import Mathlib

/-!
Shallow embedding of the finishing-material calculation engine
(`package/models.py` and `package/calculations.py`).

Python floats are modelled as exact rationals (`ℚ`), integers as `ℤ`.
Methods that can raise `ValueError` return `Except String _`; methods that
mutate `self` additionally return the post-call object state, so that a
raise after a partial mutation is observable.
-/

namespace Lab2

/-- Variant-specific geometry carried by each `Material` subclass
(`Wallpaper`, `Tile`, `Laminate` in `models.py`).  The integer counts
(`tiles_per_box`, `planks_per_pack`) are stored as `ℤ`, matching the
`int(value)` conversion in the setters for integer inputs. -/
inductive MatGeometry where
  | wallpaper (roll_width roll_length : ℚ)
  | tile (tiles_per_box : ℤ) (tile_width tile_height : ℚ)
  | laminate (planks_per_pack : ℤ) (plank_width plank_length : ℚ)
deriving DecidableEq

/-- The coverage formula each variant's constructor uses to derive
`unit_coverage` from its geometry (`models.py` lines 144, 222-223, 317-318). -/
def MatGeometry.coverageFormula : MatGeometry → ℚ
  | .wallpaper w l => w * l
  | .tile n w h => w * h * n
  | .laminate n w l => w * l * n

/-- State of a `Material` instance: the base-class attributes
(`name`, `_price_per_unit`, `_unit_coverage`) plus the subclass geometry. -/
structure Material where
  name : String
  price_per_unit : ℚ
  unit_coverage : ℚ
  geometry : MatGeometry
deriving DecidableEq

/-- `Material.__init__` (`models.py` lines 13-28): assigns `price_per_unit`
and `unit_coverage` through their validating setters (both must be > 0). -/
def Material.base_init (name : String) (price_per_unit unit_coverage : ℚ)
    (geometry : MatGeometry) : Except String Material :=
  if price_per_unit ≤ 0 then .error "price must be positive"
  else if unit_coverage ≤ 0 then .error "coverage must be positive"
  else .ok ⟨name, price_per_unit, unit_coverage, geometry⟩

/-- `Material.calculate_cost_per_sqm` (`models.py` line 90-97). -/
def Material.calculate_cost_per_sqm (m : Material) : ℚ :=
  m.price_per_unit / m.unit_coverage

/-- `Material.__eq__` (`models.py` lines 105-111): compares only `name`,
`price_per_unit` and `unit_coverage`; the variant kind and the geometry
fields are not consulted. -/
def Material.eq (a b : Material) : Bool :=
  decide (a.name = b.name) && decide (a.price_per_unit = b.price_per_unit) &&
    decide (a.unit_coverage = b.unit_coverage)

/-- `Material.__hash__` (`models.py` lines 119-121):
`hash((self.name, self._price_per_unit, self._unit_coverage))`.  A rational
is fed to the hash as its normalized numerator/denominator pair. -/
def Material.hashValue (m : Material) : UInt64 :=
  hash (m.name, m.price_per_unit.num, m.price_per_unit.den,
        m.unit_coverage.num, m.unit_coverage.den)

/-- `Wallpaper.__init__` (`models.py` lines 127-145): validates the roll
dimensions through the setters, derives `coverage = roll_width * roll_length`
and calls the base initializer. -/
def Wallpaper.init (name : String) (price_per_roll roll_width roll_length : ℚ) :
    Except String Material :=
  if roll_width ≤ 0 then .error "roll width must be positive"
  else if roll_width > 5 then .error "roll width must be at most 5"
  else if roll_length ≤ 0 then .error "roll length must be positive"
  else if roll_length > 50 then .error "roll length must be at most 50"
  else Material.base_init name price_per_roll (roll_width * roll_length)
    (.wallpaper roll_width roll_length)

/-- `Tile.__init__` (`models.py` lines 202-224): validates count and tile
dimensions, derives `coverage = tile_width * tile_height * tiles_per_box`. -/
def Tile.init (name : String) (price_per_box : ℚ) (tiles_per_box : ℤ)
    (tile_width tile_height : ℚ) : Except String Material :=
  if tiles_per_box ≤ 0 then .error "tile count must be positive"
  else if tiles_per_box > 1000 then .error "tile count must be at most 1000"
  else if tile_width ≤ 0 then .error "tile width must be positive"
  else if tile_width > 2 then .error "tile width must be at most 2"
  else if tile_height ≤ 0 then .error "tile height must be positive"
  else if tile_height > 2 then .error "tile height must be at most 2"
  else Material.base_init name price_per_box (tile_width * tile_height * tiles_per_box)
    (.tile tiles_per_box tile_width tile_height)

/-- `Laminate.__init__` (`models.py` lines 297-319): validates count and plank
dimensions, derives `coverage = plank_width * plank_length * planks_per_pack`. -/
def Laminate.init (name : String) (price_per_pack : ℚ) (planks_per_pack : ℤ)
    (plank_width plank_length : ℚ) : Except String Material :=
  if planks_per_pack ≤ 0 then .error "plank count must be positive"
  else if planks_per_pack > 100 then .error "plank count must be at most 100"
  else if plank_width ≤ 0 then .error "plank width must be positive"
  else if plank_width > 1 then .error "plank width must be at most 1"
  else if plank_length ≤ 0 then .error "plank length must be positive"
  else if plank_length > 3 then .error "plank length must be at most 3"
  else Material.base_init name price_per_pack (plank_width * plank_length * planks_per_pack)
    (.laminate planks_per_pack plank_width plank_length)

/-- `Wallpaper.roll_width` setter (`models.py` lines 152-159): validates the
new value and assigns `self._roll_width`; `_unit_coverage` is not touched.
On a non-`Wallpaper` object the attribute does not exist (AttributeError). -/
def Material.set_roll_width (m : Material) (value : ℚ) : Except String Material :=
  match m.geometry with
  | .wallpaper _ rl =>
    if value ≤ 0 then .error "roll width must be positive"
    else if value > 5 then .error "roll width must be at most 5"
    else .ok { m with geometry := .wallpaper value rl }
  | _ => .error "no attribute roll_width"

/-- `Wallpaper.roll_length` setter (`models.py` lines 166-173). -/
def Material.set_roll_length (m : Material) (value : ℚ) : Except String Material :=
  match m.geometry with
  | .wallpaper rw _ =>
    if value ≤ 0 then .error "roll length must be positive"
    else if value > 50 then .error "roll length must be at most 50"
    else .ok { m with geometry := .wallpaper rw value }
  | _ => .error "no attribute roll_length"

/-- `Tile.tiles_per_box` setter (`models.py` lines 231-238). -/
def Material.set_tiles_per_box (m : Material) (value : ℤ) : Except String Material :=
  match m.geometry with
  | .tile _ tw th =>
    if value ≤ 0 then .error "tile count must be positive"
    else if value > 1000 then .error "tile count must be at most 1000"
    else .ok { m with geometry := .tile value tw th }
  | _ => .error "no attribute tiles_per_box"

/-- `Tile.tile_width` setter (`models.py` lines 245-252). -/
def Material.set_tile_width (m : Material) (value : ℚ) : Except String Material :=
  match m.geometry with
  | .tile n _ th =>
    if value ≤ 0 then .error "tile width must be positive"
    else if value > 2 then .error "tile width must be at most 2"
    else .ok { m with geometry := .tile n value th }
  | _ => .error "no attribute tile_width"

/-- `Tile.tile_height` setter (`models.py` lines 259-266). -/
def Material.set_tile_height (m : Material) (value : ℚ) : Except String Material :=
  match m.geometry with
  | .tile n tw _ =>
    if value ≤ 0 then .error "tile height must be positive"
    else if value > 2 then .error "tile height must be at most 2"
    else .ok { m with geometry := .tile n tw value }
  | _ => .error "no attribute tile_height"

/-- `Laminate.planks_per_pack` setter (`models.py` lines 326-333). -/
def Material.set_planks_per_pack (m : Material) (value : ℤ) : Except String Material :=
  match m.geometry with
  | .laminate _ pw pl =>
    if value ≤ 0 then .error "plank count must be positive"
    else if value > 100 then .error "plank count must be at most 100"
    else .ok { m with geometry := .laminate value pw pl }
  | _ => .error "no attribute planks_per_pack"

/-- `Laminate.plank_width` setter (`models.py` lines 340-347). -/
def Material.set_plank_width (m : Material) (value : ℚ) : Except String Material :=
  match m.geometry with
  | .laminate n _ pl =>
    if value ≤ 0 then .error "plank width must be positive"
    else if value > 1 then .error "plank width must be at most 1"
    else .ok { m with geometry := .laminate n value pl }
  | _ => .error "no attribute plank_width"

/-- `Laminate.plank_length` setter (`models.py` lines 354-361). -/
def Material.set_plank_length (m : Material) (value : ℚ) : Except String Material :=
  match m.geometry with
  | .laminate n pw _ =>
    if value ≤ 0 then .error "plank length must be positive"
    else if value > 3 then .error "plank length must be at most 3"
    else .ok { m with geometry := .laminate n pw value }
  | _ => .error "no attribute plank_length"

/-- One geometric-attribute mutation: dispatch table over the eight
variant-specific setters above, used to quantify over "any setter". -/
inductive GeomSetter where
  | rollWidth (v : ℚ)
  | rollLength (v : ℚ)
  | tilesPerBox (v : ℤ)
  | tileWidth (v : ℚ)
  | tileHeight (v : ℚ)
  | planksPerPack (v : ℤ)
  | plankWidth (v : ℚ)
  | plankLength (v : ℚ)

/-- Apply the named geometry setter to a material. -/
def Material.applySetter (m : Material) : GeomSetter → Except String Material
  | .rollWidth v => m.set_roll_width v
  | .rollLength v => m.set_roll_length v
  | .tilesPerBox v => m.set_tiles_per_box v
  | .tileWidth v => m.set_tile_width v
  | .tileHeight v => m.set_tile_height v
  | .planksPerPack v => m.set_planks_per_pack v
  | .plankWidth v => m.set_plank_width v
  | .plankLength v => m.set_plank_length v

/-- State of a `CalculationResult` (`models.py` lines 389-461). -/
structure CalculationResult where
  material : Material
  area : ℚ
  units_needed : ℤ
  total_cost : ℚ
  reserve_percent : ℚ
deriving DecidableEq

/-- `CalculationResult.__init__` (`models.py` lines 392-413): assigns the
fields through their validating setters, in source order. -/
def CalculationResult.init (material : Material) (area : ℚ) (units_needed : ℤ)
    (total_cost reserve_percent : ℚ) : Except String CalculationResult :=
  if area ≤ 0 then .error "area must be positive"
  else if units_needed ≤ 0 then .error "units must be positive"
  else if total_cost < 0 then .error "cost must be nonnegative"
  else if reserve_percent < 0 ∨ reserve_percent > 100 then
    .error "reserve percent must be between 0 and 100"
  else .ok ⟨material, area, units_needed, total_cost, reserve_percent⟩

/-- Round-half-to-even on rationals (the tie-breaking rule of Python's
built-in `round`).  Parity is tested via `% 2`. -/
def roundHalfEven (q : ℚ) : ℤ :=
  if Int.fract q < 1 / 2 then ⌊q⌋
  else if 1 / 2 < Int.fract q then ⌊q⌋ + 1
  else if ⌊q⌋ % 2 = 0 then ⌊q⌋ else ⌊q⌋ + 1

/-- Python's `round(x, ndigits)`: round-half-even at the given decimal
position. -/
def pyRound (x : ℚ) (ndigits : ℤ) : ℚ :=
  (roundHalfEven (x * 10 ^ ndigits) : ℚ) / 10 ^ ndigits

/-- The optional persistence collaborator (`db_manager`): its
`save_calculation` either succeeds or raises. -/
abbrev DbManager := CalculationResult → Except String Unit

/-- State of a `MaterialCalculator` (`calculations.py` lines 14-35). -/
structure MaterialCalculator where
  reserve_percent : ℚ
  min_area : ℚ
  max_area : ℚ
  precision : ℤ
  currency : String
  auto_save : Bool
  calculations_history : List CalculationResult
  db_manager : Option DbManager

/-- `MaterialCalculator.__init__` (`calculations.py` lines 14-35): assigns
the private attributes directly, without going through any setter, and
starts with an empty history. -/
def MaterialCalculator.init (reserve_percent min_area max_area : ℚ)
    (precision : ℤ) (currency : String) (auto_save : Bool)
    (db_manager : Option DbManager) : MaterialCalculator :=
  ⟨reserve_percent, min_area, max_area, precision, currency, auto_save, [], db_manager⟩

/-- `reserve_percent` setter (`calculations.py` lines 42-55). -/
def MaterialCalculator.set_reserve_percent (c : MaterialCalculator) (value : ℚ) :
    Except String MaterialCalculator :=
  if value < 0 ∨ value > 100 then .error "reserve percent must be between 0 and 100"
  else .ok { c with reserve_percent := value }

/-- `min_area` setter (`calculations.py` lines 62-77). -/
def MaterialCalculator.set_min_area (c : MaterialCalculator) (value : ℚ) :
    Except String MaterialCalculator :=
  if value < 0 then .error "min area must be nonnegative"
  else if value > c.max_area then .error "min area must be at most max area"
  else .ok { c with min_area := value }

/-- `max_area` setter (`calculations.py` lines 84-97). -/
def MaterialCalculator.set_max_area (c : MaterialCalculator) (value : ℚ) :
    Except String MaterialCalculator :=
  if value < c.min_area then .error "max area must be at least min area"
  else .ok { c with max_area := value }

/-- `precision` setter (`calculations.py` lines 104-117); the
`isinstance(value, int)` part of the check is carried by the `ℤ` type. -/
def MaterialCalculator.set_precision (c : MaterialCalculator) (value : ℤ) :
    Except String MaterialCalculator :=
  if value < 0 ∨ value > 10 then .error "precision must be an integer between 0 and 10"
  else .ok { c with precision := value }

/-- Argument passed to the `currency` setter: a Python string, or a value of
some other runtime type. -/
inductive CurrencyArg where
  | ofString (s : String)
  | nonString

/-- `currency` setter (`calculations.py` lines 124-137): the only check is
`isinstance(value, str)`; every string value is accepted as-is. -/
def MaterialCalculator.set_currency (c : MaterialCalculator) (value : CurrencyArg) :
    Except String MaterialCalculator :=
  match value with
  | .ofString s => .ok { c with currency := s }
  | .nonString => .error "currency must be a string"

/-- Argument passed to `calculate` as `material`: a `Material` instance, or a
value of some other runtime type (rejected by the `isinstance` check). -/
inductive CalcArg where
  | mat (m : Material)
  | notMaterial

/-- `MaterialCalculator.calculate` (`calculations.py` lines 166-217).
Returns the raised-or-returned value together with the post-call calculator
state. -/
def MaterialCalculator.calculate (c : MaterialCalculator) (material : CalcArg)
    (area : ℚ) : Except String CalculationResult × MaterialCalculator :=
  if area < c.min_area then (.error "area below minimum", c)
  else if area > c.max_area then (.error "area above maximum", c)
  else match material with
  | .notMaterial => (.error "material must be a Material instance", c)
  | .mat m =>
    let area_with_reserve := area * (1 + c.reserve_percent / 100)
    let units_needed : ℤ := ⌈area_with_reserve / m.unit_coverage⌉
    let total_cost := pyRound ((units_needed : ℚ) * m.price_per_unit) c.precision
    match CalculationResult.init m area units_needed total_cost c.reserve_percent with
    | .error e => (.error e, c)
    | .ok result =>
      if c.auto_save then
        let c' := { c with calculations_history := c.calculations_history ++ [result] }
        match c'.db_manager with
        | some dbm =>
          -- try/except around save_calculation: any failure is caught and
          -- only logged, the result is returned either way
          match dbm result with
          | .ok _ => (.ok result, c')
          | .error _ => (.ok result, c')
        | none => (.ok result, c')
      else (.ok result, c)

/-- The `for material in materials` loop body of `compare_materials`
(`calculations.py` lines 246-249): one `calculate` call per material, in
input order, threading the calculator state; the first raise propagates. -/
def MaterialCalculator.calcSequence (c : MaterialCalculator) (materials : List Material)
    (area : ℚ) : Except String (List CalculationResult) × MaterialCalculator :=
  match materials with
  | [] => (.ok [], c)
  | m :: rest =>
    match c.calculate (.mat m) area with
    | (.error e, c') => (.error e, c')
    | (.ok r, c') =>
      match c'.calcSequence rest area with
      | (.error e, c'') => (.error e, c'')
      | (.ok rs, c'') => (.ok (r :: rs), c'')

/-- The comparison key of `results.sort(key=lambda r: r.total_cost)`. -/
def costLe (a b : CalculationResult) : Bool :=
  decide (a.total_cost ≤ b.total_cost)

/-- `MaterialCalculator.compare_materials` (`calculations.py` lines 232-254):
rejects an empty list, computes one result per material, then sorts by
`total_cost` with Python's stable `list.sort` (modelled by the stable
`List.mergeSort`). -/
def MaterialCalculator.compare_materials (c : MaterialCalculator)
    (materials : List Material) (area : ℚ) :
    Except String (List CalculationResult) × MaterialCalculator :=
  if materials.isEmpty then (.error "materials list must not be empty", c)
  else match c.calcSequence materials area with
  | (.error e, c') => (.error e, c')
  | (.ok results, c') => (.ok (results.mergeSort costLe), c')

/-- `RoomCalculator.calculate_floor_area` (`calculations.py` lines 358-371);
the method reads no instance state. -/
def calculate_floor_area (length width : ℚ) : Except String ℚ :=
  if length ≤ 0 ∨ width ≤ 0 then .error "length and width must be positive"
  else .ok (length * width)

/-- `RoomCalculator.calculate_wall_area` (`calculations.py` lines 373-397);
the method reads no instance state. -/
def calculate_wall_area (perimeter height : ℚ) (door_area window_area : ℚ) :
    Except String ℚ :=
  if perimeter ≤ 0 ∨ height ≤ 0 then .error "perimeter and height must be positive"
  else if door_area < 0 ∨ window_area < 0 then
    .error "door and window areas must be nonnegative"
  else
    let result_area := perimeter * height - door_area - window_area
    if result_area ≤ 0 then .error "wall area after openings must be positive"
    else .ok result_area

/-! Concrete sample objects used to instantiate the theorems below. -/

/-- A wallpaper: price 10 per roll, coverage 5 = 1 m × 5 m. -/
def wA : Material := ⟨"a", 10, 5, .wallpaper 1 5⟩

/-- A cheaper wallpaper with the same coverage: price 3 per roll. -/
def wB : Material := ⟨"b", 3, 5, .wallpaper 1 5⟩

/-- A tile material with the same name, price and coverage as `wA`:
coverage 5 = 0.5 m × 0.5 m × 20 tiles. -/
def tC : Material := ⟨"a", 10, 5, .tile 20 (1/2) (1/2)⟩

/-- A wallpaper as produced by `Wallpaper.init "w" 100 1 10`: coverage 10. -/
def w0 : Material := ⟨"w", 100, 10, .wallpaper 1 10⟩

/-- `w0` after `roll_width = 2`: the stored coverage is still 10. -/
def w0Mut : Material := ⟨"w", 100, 10, .wallpaper 2 10⟩

/-- A persistence collaborator whose `save_calculation` always raises. -/
def dbFail : DbManager := fun _ => .error "db unavailable"

/-- Calculator: reserve 10 %, bounds [0.1, 10000], precision 0, auto-save on. -/
def calcSave : MaterialCalculator := MaterialCalculator.init 10 (1/10) 10000 0 "r" true none

/-- Same configuration but with auto-save off. -/
def calcNoSave : MaterialCalculator := MaterialCalculator.init 10 (1/10) 10000 0 "r" false none

/-- Same configuration with reserve 0 % and auto-save off. -/
def calcZero : MaterialCalculator := MaterialCalculator.init 0 (1/10) 10000 0 "r" false none

/-- Result of `calcSave.calculate wA 12`: 13.2 m² with reserve, 3 rolls, cost 30. -/
def rW1 : CalculationResult := ⟨wA, 12, 3, 30, 10⟩

/-- Result of `calculate wA 20` at reserve 10 %: 22 m², 5 rolls, cost 50. -/
def rW2 : CalculationResult := ⟨wA, 20, 5, 50, 10⟩

/-- Result of `calculate wA 12` at reserve 0 %: 12 m², 3 rolls, cost 30. -/
def rAr0 : CalculationResult := ⟨wA, 12, 3, 30, 0⟩

/-- Result of `calculate wB 12` at reserve 0 %: 3 rolls, cost 9. -/
def rBr0 : CalculationResult := ⟨wB, 12, 3, 9, 0⟩

/-- Result of `calculate wA 12` at reserve 50 %: 18 m², 4 rolls, cost 40. -/
def rRp50 : CalculationResult := ⟨wA, 12, 4, 40, 50⟩

/-- `calcSave` after one auto-saved calculation. -/
def calcSaveAfter1 : MaterialCalculator := { calcSave with calculations_history := [rW1] }

/-! General lemmas about the embedded operations. -/

/-- A raising `calculate` returns the calculator state it was given:
every `raise` happens before the history append. -/
theorem calculate_error_state {c : MaterialCalculator} {arg : CalcArg} {a : ℚ}
    {e : String} {c' : MaterialCalculator}
    (h : c.calculate arg a = (.error e, c')) : c' = c := by
  unfold MaterialCalculator.calculate at h
  split at h
  · simp at h; exact h.2.symm
  split at h
  · simp at h; exact h.2.symm
  split at h
  · simp at h; exact h.2.symm
  · rename_i m
    simp only [] at h
    split at h
    · simp at h; exact h.2.symm
    · split at h
      · split at h
        · split at h <;> simp at h
        · simp at h
      · simp at h

/-- Full characterization of a successful `calculate` call. -/
theorem calculate_ok_spec {c : MaterialCalculator} {m : Material} {a : ℚ}
    {r : CalculationResult} {c' : MaterialCalculator}
    (h : c.calculate (.mat m) a = (.ok r, c')) :
    c.min_area ≤ a ∧ a ≤ c.max_area ∧
    r.material = m ∧ r.area = a ∧
    r.units_needed = ⌈a * (1 + c.reserve_percent / 100) / m.unit_coverage⌉ ∧
    r.total_cost = pyRound ((r.units_needed : ℚ) * m.price_per_unit) c.precision ∧
    r.reserve_percent = c.reserve_percent ∧
    0 < r.area ∧ 0 < r.units_needed ∧ 0 ≤ r.total_cost ∧
    0 ≤ c.reserve_percent ∧ c.reserve_percent ≤ 100 ∧
    (c.auto_save = true → c'.calculations_history = c.calculations_history ++ [r]) ∧
    (c.auto_save = false → c' = c) := by
  unfold MaterialCalculator.calculate at h
  split at h
  · simp at h
  split at h
  · simp at h
  rename_i h1 h2
  simp only [] at h
  split at h
  · simp at h
  · rename_i result hinit
    unfold CalculationResult.init at hinit
    split at hinit
    · simp at hinit
    split at hinit
    · simp at hinit
    split at hinit
    · simp at hinit
    split at hinit
    · simp at hinit
    rename_i ha hu ht hr
    simp only [Except.ok.injEq] at hinit
    subst hinit
    push_neg at h1 h2 ha hu ht hr
    split at h
    · rename_i hsave
      split at h
      · split at h <;>
        · simp only [Prod.mk.injEq, Except.ok.injEq] at h
          obtain ⟨hres, hc'⟩ := h
          subst hres; subst hc'
          exact ⟨h1, h2, rfl, rfl, rfl, rfl, rfl, ha, hu, ht, hr.1, hr.2,
            fun _ => rfl, fun hf => by rw [hsave] at hf; cases hf⟩
      · simp only [Prod.mk.injEq, Except.ok.injEq] at h
        obtain ⟨hres, hc'⟩ := h
        subst hres; subst hc'
        exact ⟨h1, h2, rfl, rfl, rfl, rfl, rfl, ha, hu, ht, hr.1, hr.2,
          fun _ => rfl, fun hf => by rw [hsave] at hf; cases hf⟩
    · rename_i hsave
      simp only [Prod.mk.injEq, Except.ok.injEq] at h
      obtain ⟨hres, hc'⟩ := h
      subst hres; subst hc'
      exact ⟨h1, h2, rfl, rfl, rfl, rfl, rfl, ha, hu, ht, hr.1, hr.2,
        fun ht' => absurd ht' hsave, fun _ => rfl⟩

/-- `calculate` does not look at the outcome of the persistence collaborator:
a run that succeeds with no collaborator succeeds identically with any
collaborator installed. -/
theorem calculate_db_swap {c : MaterialCalculator} {arg : CalcArg} {a : ℚ}
    {r : CalculationResult} {c₀ : MaterialCalculator} (dbm : DbManager)
    (h : MaterialCalculator.calculate { c with db_manager := none } arg a = (.ok r, c₀)) :
    MaterialCalculator.calculate { c with db_manager := some dbm } arg a =
      (.ok r, { c₀ with db_manager := some dbm }) := by
  unfold MaterialCalculator.calculate at h ⊢
  dsimp only at h ⊢
  split at h
  · simp at h
  split at h
  · simp at h
  rename_i h1 h2
  rw [if_neg h1, if_neg h2]
  cases arg with
  | notMaterial => dsimp only at h; simp at h
  | mat m =>
    dsimp only at h ⊢
    split at h
    · simp at h
    · rename_i result hinit
      split at h
      · rename_i hsave
        rw [if_pos hsave]
        simp only [Prod.mk.injEq, Except.ok.injEq] at h
        obtain ⟨hres, hc⟩ := h
        subst hres
        subst hc
        match hdb : dbm result with
        | .ok _ => rfl
        | .error _ => rfl
      · rename_i hsave
        rw [if_neg hsave]
        simp only [Prod.mk.injEq, Except.ok.injEq] at h
        obtain ⟨hres, hc⟩ := h
        subst hres
        subst hc
        rfl

/-- Rounding an integer changes nothing. -/
theorem roundHalfEven_intCast (z : ℤ) : roundHalfEven (z : ℚ) = z := by
  unfold roundHalfEven
  rw [Int.fract_intCast, Int.floor_intCast]
  norm_num

/-- Round-half-even is monotone. -/
theorem roundHalfEven_mono {x y : ℚ} (h : x ≤ y) :
    roundHalfEven x ≤ roundHalfEven y := by
  have hf : ⌊x⌋ ≤ ⌊y⌋ := Int.floor_mono h
  unfold roundHalfEven
  rcases lt_or_eq_of_le hf with hlt | heq
  · split_ifs <;> omega
  · have hfr : Int.fract x ≤ Int.fract y := by
      simp only [Int.fract]
      rw [heq]
      linarith
    rw [heq]
    split_ifs <;> first | omega | linarith

/-- With zero digits `pyRound` is plain round-half-even. -/
theorem pyRound_zero (x : ℚ) : pyRound x 0 = roundHalfEven x := by
  unfold pyRound
  norm_num

/-- `pyRound` is monotone in the rounded value. -/
theorem pyRound_mono {x y : ℚ} (n : ℤ) (h : x ≤ y) : pyRound x n ≤ pyRound y n := by
  unfold pyRound
  have hp : (0:ℚ) < (10:ℚ) ^ n := by positivity
  have hm : x * 10 ^ n ≤ y * 10 ^ n := mul_le_mul_of_nonneg_right h hp.le
  have hr := roundHalfEven_mono hm
  rw [div_le_div_iff_of_pos_right hp]
  exact_mod_cast hr

/-- Evaluation rule for a successful auto-saving `calculate` call. -/
theorem calculate_ok_build_save {c : MaterialCalculator} {m : Material} {a : ℚ}
    {u : ℤ} {tc : ℚ}
    (h1 : ¬a < c.min_area) (h2 : ¬a > c.max_area)
    (hu : ⌈a * (1 + c.reserve_percent / 100) / m.unit_coverage⌉ = u)
    (htc : pyRound ((u : ℚ) * m.price_per_unit) c.precision = tc)
    (ha : ¬a ≤ 0) (hu0 : ¬u ≤ 0) (htc0 : ¬tc < 0)
    (hr : ¬(c.reserve_percent < 0 ∨ c.reserve_percent > 100))
    (hsave : c.auto_save = true) (hdb : c.db_manager = none) :
    c.calculate (.mat m) a =
      (.ok ⟨m, a, u, tc, c.reserve_percent⟩,
       { c with calculations_history :=
           c.calculations_history ++ [⟨m, a, u, tc, c.reserve_percent⟩] }) := by
  unfold MaterialCalculator.calculate
  rw [if_neg h1, if_neg h2]
  dsimp only
  rw [hu, htc]
  unfold CalculationResult.init
  rw [if_neg ha, if_neg hu0, if_neg htc0, if_neg hr]
  dsimp only
  rw [if_pos hsave, hdb]

/-- Evaluation rule for a successful non-saving `calculate` call. -/
theorem calculate_ok_build_nosave {c : MaterialCalculator} {m : Material} {a : ℚ}
    {u : ℤ} {tc : ℚ}
    (h1 : ¬a < c.min_area) (h2 : ¬a > c.max_area)
    (hu : ⌈a * (1 + c.reserve_percent / 100) / m.unit_coverage⌉ = u)
    (htc : pyRound ((u : ℚ) * m.price_per_unit) c.precision = tc)
    (ha : ¬a ≤ 0) (hu0 : ¬u ≤ 0) (htc0 : ¬tc < 0)
    (hr : ¬(c.reserve_percent < 0 ∨ c.reserve_percent > 100))
    (hsave : c.auto_save = false) :
    c.calculate (.mat m) a = (.ok ⟨m, a, u, tc, c.reserve_percent⟩, c) := by
  unfold MaterialCalculator.calculate
  rw [if_neg h1, if_neg h2]
  dsimp only
  rw [hu, htc]
  unfold CalculationResult.init
  rw [if_neg ha, if_neg hu0, if_neg htc0, if_neg hr]
  dsimp only
  rw [if_neg (by simp [hsave])]

/-- Evaluation rule for the below-minimum range error. -/
theorem calculate_low_area_error {c : MaterialCalculator} {arg : CalcArg} {a : ℚ}
    (h1 : a < c.min_area) : c.calculate arg a = (.error "area below minimum", c) := by
  unfold MaterialCalculator.calculate
  rw [if_pos h1]

/-- A successful comparison loop produces one result per material. -/
theorem calcSequence_ok_length {ms : List Material} :
    ∀ {c : MaterialCalculator} {a : ℚ} {rs : List CalculationResult}
      {c' : MaterialCalculator},
    c.calcSequence ms a = (.ok rs, c') → rs.length = ms.length := by
  induction ms with
  | nil =>
    intro c a rs c' h
    unfold MaterialCalculator.calcSequence at h
    simp only [Prod.mk.injEq, Except.ok.injEq] at h
    rw [← h.1]
    rfl
  | cons m rest ih =>
    intro c a rs c' h
    unfold MaterialCalculator.calcSequence at h
    split at h
    · simp at h
    · split at h
      · simp at h
      · rename_i hseq
        simp only [Prod.mk.injEq, Except.ok.injEq] at h
        rw [← h.1]
        simp [ih hseq]

/-- The sort key comparison is transitive. -/
theorem costLe_trans : ∀ (a b c : CalculationResult),
    costLe a b → costLe b c → costLe a c := by
  intro a b c
  simp only [costLe, decide_eq_true_eq]
  exact le_trans

/-- The sort key comparison is total. -/
theorem costLe_total : ∀ (a b : CalculationResult), costLe a b || costLe b a := by
  intro a b
  simp only [costLe, Bool.or_eq_true, decide_eq_true_eq]
  exact le_total _ _

/-- Evaluation: `calcSave.calculate wA 12` succeeds and appends to history. -/
theorem calcSave_wA12_eval :
    calcSave.calculate (.mat wA) 12 = (.ok rW1, calcSaveAfter1) := by
  apply calculate_ok_build_save
  · norm_num [calcSave, MaterialCalculator.init]
  · norm_num [calcSave, MaterialCalculator.init]
  · show (⌈(12:ℚ) * (1 + calcSave.reserve_percent / 100) / wA.unit_coverage⌉ : ℤ) = 3
    simp only [calcSave, MaterialCalculator.init, wA]
    rw [Int.ceil_eq_iff]
    norm_num
  · show pyRound (((3:ℤ) : ℚ) * wA.price_per_unit) calcSave.precision = 30
    simp only [calcSave, MaterialCalculator.init, wA]
    rw [show ((3:ℤ) : ℚ) * 10 = ((30:ℤ) : ℚ) by push_cast; norm_num,
       pyRound_zero, roundHalfEven_intCast]
    norm_num
  · norm_num
  · norm_num
  · norm_num
  · norm_num [calcSave, MaterialCalculator.init]
  · rfl
  · rfl

/-- Evaluation: `calcNoSave.calculate wA 12` succeeds, state unchanged. -/
theorem calcNoSave_wA12_eval :
    calcNoSave.calculate (.mat wA) 12 = (.ok rW1, calcNoSave) := by
  apply calculate_ok_build_nosave
  · norm_num [calcNoSave, MaterialCalculator.init]
  · norm_num [calcNoSave, MaterialCalculator.init]
  · show (⌈(12:ℚ) * (1 + calcNoSave.reserve_percent / 100) / wA.unit_coverage⌉ : ℤ) = 3
    simp only [calcNoSave, MaterialCalculator.init, wA]
    rw [Int.ceil_eq_iff]
    norm_num
  · show pyRound (((3:ℤ) : ℚ) * wA.price_per_unit) calcNoSave.precision = 30
    simp only [calcNoSave, MaterialCalculator.init, wA]
    rw [show ((3:ℤ) : ℚ) * 10 = ((30:ℤ) : ℚ) by push_cast; norm_num,
       pyRound_zero, roundHalfEven_intCast]
    norm_num
  · norm_num
  · norm_num
  · norm_num
  · norm_num [calcNoSave, MaterialCalculator.init]
  · rfl

/-- Evaluation: `calcNoSave.calculate wA 20` gives 5 rolls for 50. -/
theorem calcNoSave_wA20_eval :
    calcNoSave.calculate (.mat wA) 20 = (.ok rW2, calcNoSave) := by
  apply calculate_ok_build_nosave
  · norm_num [calcNoSave, MaterialCalculator.init]
  · norm_num [calcNoSave, MaterialCalculator.init]
  · show (⌈(20:ℚ) * (1 + calcNoSave.reserve_percent / 100) / wA.unit_coverage⌉ : ℤ) = 5
    simp only [calcNoSave, MaterialCalculator.init, wA]
    rw [Int.ceil_eq_iff]
    norm_num
  · show pyRound (((5:ℤ) : ℚ) * wA.price_per_unit) calcNoSave.precision = 50
    simp only [calcNoSave, MaterialCalculator.init, wA]
    rw [show ((5:ℤ) : ℚ) * 10 = ((50:ℤ) : ℚ) by push_cast; norm_num,
       pyRound_zero, roundHalfEven_intCast]
    norm_num
  · norm_num
  · norm_num
  · norm_num
  · norm_num [calcNoSave, MaterialCalculator.init]
  · rfl

/-- Evaluation: at reserve 0 %, `calculate wA 12` gives 3 rolls for 30. -/
theorem calcRp0_wA12_eval :
    MaterialCalculator.calculate { calcNoSave with reserve_percent := 0 } (.mat wA) 12 =
      (.ok rAr0, { calcNoSave with reserve_percent := 0 }) := by
  apply calculate_ok_build_nosave
  · norm_num [calcNoSave, MaterialCalculator.init]
  · norm_num [calcNoSave, MaterialCalculator.init]
  · show (⌈(12:ℚ) * (1 + (0:ℚ) / 100) / wA.unit_coverage⌉ : ℤ) = 3
    simp only [wA]
    rw [Int.ceil_eq_iff]
    norm_num
  · show pyRound (((3:ℤ) : ℚ) * wA.price_per_unit) calcNoSave.precision = 30
    simp only [calcNoSave, MaterialCalculator.init, wA]
    rw [show ((3:ℤ) : ℚ) * 10 = ((30:ℤ) : ℚ) by push_cast; norm_num,
       pyRound_zero, roundHalfEven_intCast]
    norm_num
  · norm_num
  · norm_num
  · norm_num
  · norm_num
  · rfl

/-- Evaluation: at reserve 50 %, `calculate wA 12` gives 4 rolls for 40. -/
theorem calcRp50_wA12_eval :
    MaterialCalculator.calculate { calcNoSave with reserve_percent := 50 } (.mat wA) 12 =
      (.ok rRp50, { calcNoSave with reserve_percent := 50 }) := by
  apply calculate_ok_build_nosave
  · norm_num [calcNoSave, MaterialCalculator.init]
  · norm_num [calcNoSave, MaterialCalculator.init]
  · show (⌈(12:ℚ) * (1 + (50:ℚ) / 100) / wA.unit_coverage⌉ : ℤ) = 4
    simp only [wA]
    rw [Int.ceil_eq_iff]
    norm_num
  · show pyRound (((4:ℤ) : ℚ) * wA.price_per_unit) calcNoSave.precision = 40
    simp only [calcNoSave, MaterialCalculator.init, wA]
    rw [show ((4:ℤ) : ℚ) * 10 = ((40:ℤ) : ℚ) by push_cast; norm_num,
       pyRound_zero, roundHalfEven_intCast]
    norm_num
  · norm_num
  · norm_num
  · norm_num
  · norm_num
  · rfl

/-- Evaluation: `calcZero.calculate wA 12` gives 3 rolls for 30. -/
theorem calcZero_wA12_eval :
    calcZero.calculate (.mat wA) 12 = (.ok rAr0, calcZero) := by
  apply calculate_ok_build_nosave
  · norm_num [calcZero, MaterialCalculator.init]
  · norm_num [calcZero, MaterialCalculator.init]
  · show (⌈(12:ℚ) * (1 + calcZero.reserve_percent / 100) / wA.unit_coverage⌉ : ℤ) = 3
    simp only [calcZero, MaterialCalculator.init, wA]
    rw [Int.ceil_eq_iff]
    norm_num
  · show pyRound (((3:ℤ) : ℚ) * wA.price_per_unit) calcZero.precision = 30
    simp only [calcZero, MaterialCalculator.init, wA]
    rw [show ((3:ℤ) : ℚ) * 10 = ((30:ℤ) : ℚ) by push_cast; norm_num,
       pyRound_zero, roundHalfEven_intCast]
    norm_num
  · norm_num
  · norm_num
  · norm_num
  · norm_num [calcZero, MaterialCalculator.init]
  · rfl

/-- Evaluation: `calcZero.calculate wB 12` gives 3 rolls for 9. -/
theorem calcZero_wB12_eval :
    calcZero.calculate (.mat wB) 12 = (.ok rBr0, calcZero) := by
  apply calculate_ok_build_nosave
  · norm_num [calcZero, MaterialCalculator.init]
  · norm_num [calcZero, MaterialCalculator.init]
  · show (⌈(12:ℚ) * (1 + calcZero.reserve_percent / 100) / wB.unit_coverage⌉ : ℤ) = 3
    simp only [calcZero, MaterialCalculator.init, wB]
    rw [Int.ceil_eq_iff]
    norm_num
  · show pyRound (((3:ℤ) : ℚ) * wB.price_per_unit) calcZero.precision = 9
    simp only [calcZero, MaterialCalculator.init, wB]
    rw [show ((3:ℤ) : ℚ) * 3 = ((9:ℤ) : ℚ) by push_cast; norm_num,
       pyRound_zero, roundHalfEven_intCast]
    norm_num
  · norm_num
  · norm_num
  · norm_num
  · norm_num [calcZero, MaterialCalculator.init]
  · rfl

/-! Claim theorems. -/

/-- C6: `calculate_wall_area` fails exactly when `perimeter ≤ 0`, `height ≤ 0`,
an opening area is negative, or `door_area + window_area ≥ perimeter × height`;
on all other inputs it returns exactly
`perimeter × height − door_area − window_area`, which is strictly positive. -/
theorem calculate_wall_area_correct (p h d w : ℚ) :
    ((p ≤ 0 ∨ h ≤ 0 ∨ d < 0 ∨ w < 0 ∨ d + w ≥ p * h) →
      ∃ e, calculate_wall_area p h d w = .error e) ∧
    (0 < p → 0 < h → 0 ≤ d → 0 ≤ w → d + w < p * h →
      calculate_wall_area p h d w = .ok (p * h - d - w) ∧ 0 < p * h - d - w) := by
  constructor
  · intro hbad
    unfold calculate_wall_area
    dsimp only
    split_ifs with c1 c2 c3
    · exact ⟨_, rfl⟩
    · exact ⟨_, rfl⟩
    · exact ⟨_, rfl⟩
    · exfalso
      push_neg at c1 c2 c3
      rcases hbad with hb | hb | hb | hb | hb
      · exact absurd hb (by linarith [c1.1])
      · exact absurd hb (by linarith [c1.2])
      · exact absurd hb (by linarith [c2.1])
      · exact absurd hb (by linarith [c2.2])
      · exact absurd hb (by push_neg; linarith)
  · intro hp hh hd hw hlt
    unfold calculate_wall_area
    rw [if_neg (by push_neg; exact ⟨hp, hh⟩), if_neg (by push_neg; exact ⟨hd, hw⟩)]
    dsimp only
    rw [if_neg (by push_neg; linarith)]
    exact ⟨rfl, by linarith⟩

/-- C6 witness: perimeter 14, height 2.5, door 2, window 1.5 gives 31.5 m²;
a zero perimeter is rejected. -/
theorem calculate_wall_area_correct_witness :
    calculate_wall_area 14 (5/2) 2 (3/2) = .ok (63/2) ∧
    (∃ e, calculate_wall_area 0 1 0 0 = .error e) := by
  constructor
  · have h := (calculate_wall_area_correct 14 (5/2) 2 (3/2)).2 (by norm_num) (by norm_num)
      (by norm_num) (by norm_num) (by norm_num)
    rw [h.1]
    norm_num
  · exact (calculate_wall_area_correct 0 1 0 0).1 (by norm_num)

/-- C3: whenever `calculate` raises — failed range check, non-`Material`
argument, or a field rejected by the `CalculationResult` constructor — the
calculator state, in particular its history, is exactly the pre-call state. -/
theorem failed_calculate_leaves_history_unchanged (c : MaterialCalculator)
    (arg : CalcArg) (a : ℚ) (e : String)
    (h : (c.calculate arg a).1 = .error e) :
    (c.calculate arg a).2 = c ∧
    ((c.calculate arg a).2).calculations_history = c.calculations_history := by
  rcases hE : c.calculate arg a with ⟨fst, snd⟩
  rw [hE] at h
  dsimp only at h
  subst h
  have hs := calculate_error_state hE
  exact ⟨hs, by rw [hs]⟩

/-- C3 witness: area 0.05 is below the default minimum 0.1, the call raises
and the calculator is unchanged. -/
theorem failed_calculate_leaves_history_unchanged_witness :
    (calcSave.calculate (.mat wA) (1/20)).2 = calcSave := by
  have hcalc : calcSave.calculate (.mat wA) (1/20) =
      (.error "area below minimum", calcSave) :=
    calculate_low_area_error (by norm_num [calcSave, MaterialCalculator.init])
  have h1 : (calcSave.calculate (.mat wA) (1/20)).1 = .error "area below minimum" := by
    rw [hcalc]
  exact (failed_calculate_leaves_history_unchanged calcSave (.mat wA) (1/20)
    "area below minimum" h1).1

/-- C8: the `MaterialCalculator` constructor performs no domain validation —
it stores reserve 150, min_area 5 > max_area 1 and precision 11 unchanged,
although each corresponding setter rejects that very value. -/
theorem calculator_init_accepts_invalid_config :
    (MaterialCalculator.init 150 5 1 11 "r" true none).reserve_percent = 150 ∧
    (MaterialCalculator.init 150 5 1 11 "r" true none).min_area = 5 ∧
    (MaterialCalculator.init 150 5 1 11 "r" true none).max_area = 1 ∧
    (MaterialCalculator.init 150 5 1 11 "r" true none).precision = 11 ∧
    (MaterialCalculator.init 150 5 1 11 "r" true none).set_reserve_percent 150 =
      .error "reserve percent must be between 0 and 100" ∧
    (MaterialCalculator.init 150 5 1 11 "r" true none).set_precision 11 =
      .error "precision must be an integer between 0 and 10" ∧
    (MaterialCalculator.init 150 5 1 11 "r" true none).set_min_area 5 =
      .error "min area must be at most max area" := by
  refine ⟨rfl, rfl, rfl, rfl, ?_, ?_, ?_⟩
  · unfold MaterialCalculator.set_reserve_percent
    rw [if_pos (by norm_num)]
  · unfold MaterialCalculator.set_precision
    rw [if_pos (by norm_num)]
  · unfold MaterialCalculator.set_min_area
    rw [if_neg (by norm_num), if_pos (by norm_num [MaterialCalculator.init])]

/-- C9 counterexample: setting `currency` to the empty string is accepted,
it does not raise. -/
theorem set_currency_accepts_empty_cex :
    calcSave.set_currency (.ofString "") = .ok { calcSave with currency := "" } := rfl

/-- C9 amended: the `currency` setter accepts every string — including the
empty string — unchanged (it never clamps), and rejects exactly the
non-string values. -/
theorem set_currency_accepts_any_string (c : MaterialCalculator) (s : String) :
    c.set_currency (.ofString s) = .ok { c with currency := s } ∧
    c.set_currency .nonString = .error "currency must be a string" := ⟨rfl, rfl⟩

/-- C10: `Material` equality ignores the variant kind and the geometry —
equal name, price and coverage make any two materials equal, and equal
materials have equal hashes. -/
theorem material_eq_blind_to_variant (a b : Material)
    (h1 : a.name = b.name) (h2 : a.price_per_unit = b.price_per_unit)
    (h3 : a.unit_coverage = b.unit_coverage) :
    Material.eq a b = true ∧ Material.hashValue a = Material.hashValue b := by
  constructor
  · simp [Material.eq, h1, h2, h3]
  · simp [Material.hashValue, h1, h2, h3]

/-- C10 witness: a wallpaper and a tile with the same name, price and
coverage compare equal and hash equal. -/
theorem material_eq_blind_to_variant_witness :
    Material.eq wA tC = true ∧ Material.hashValue wA = Material.hashValue tC :=
  material_eq_blind_to_variant wA tC rfl rfl rfl

/-- C1: for a positive-coverage material, a call accepted by the range check
computes `units_needed = ceil(area × (1 + reserve/100) / unit_coverage)`;
an exact multiple adds no extra unit, a fractional remainder adds exactly
one full unit over the floor. -/
theorem calculate_units_needed_ceiling (c : MaterialCalculator) (m : Material)
    (a : ℚ) (r : CalculationResult) (c' : MaterialCalculator)
    (hcov : 0 < m.unit_coverage)
    (h : c.calculate (.mat m) a = (.ok r, c')) :
    c.min_area ≤ a ∧ a ≤ c.max_area ∧
    r.units_needed = ⌈a * (1 + c.reserve_percent / 100) / m.unit_coverage⌉ ∧
    (∀ k : ℤ, a * (1 + c.reserve_percent / 100) = k * m.unit_coverage →
      r.units_needed = k) ∧
    ((∀ k : ℤ, a * (1 + c.reserve_percent / 100) ≠ k * m.unit_coverage) →
      r.units_needed = ⌊a * (1 + c.reserve_percent / 100) / m.unit_coverage⌋ + 1) := by
  obtain ⟨hmin, hmax, -, -, hunits, -, -, -, -, -, -, -, -, -⟩ := calculate_ok_spec h
  refine ⟨hmin, hmax, hunits, ?_, ?_⟩
  · intro k hk
    rw [hunits, hk, mul_div_cancel_right₀ _ hcov.ne', Int.ceil_intCast]
  · intro hk
    set t := a * (1 + c.reserve_percent / 100) / m.unit_coverage with ht
    have hmul : t * m.unit_coverage = a * (1 + c.reserve_percent / 100) :=
      div_mul_cancel₀ _ hcov.ne'
    have hne : (↑⌊t⌋ : ℚ) ≠ t := by
      intro heq
      apply hk ⌊t⌋
      rw [← hmul, heq]
    have hlt : (↑⌊t⌋ : ℚ) < t := lt_of_le_of_ne (Int.floor_le t) hne
    have hup : ⌊t⌋ < ⌈t⌉ := Int.lt_ceil.mpr hlt
    have hdn : ⌈t⌉ ≤ ⌊t⌋ + 1 := by
      rw [Int.ceil_le]
      push_cast
      linarith [Int.lt_floor_add_one t]
    rw [hunits]
    omega

/-- C1 witness: wallpaper coverage 5, reserve 10 %, area 12 — 13.2 m² of
demand needs 3 rolls. -/
theorem calculate_units_needed_ceiling_witness : rW1.units_needed = 3 := by
  have hspec := calculate_units_needed_ceiling calcSave wA 12 rW1 calcSaveAfter1
    (by norm_num [wA]) calcSave_wA12_eval
  rw [hspec.2.2.1]
  simp only [calcSave, MaterialCalculator.init, wA]
  rw [Int.ceil_eq_iff]
  norm_num

/-- C4: with auto-save on, a calculation that succeeds with no persistence
collaborator succeeds identically with a collaborator whose
`save_calculation` raises — the result is returned, the history gets the
entry, nothing propagates. -/
theorem persistence_failure_swallowed (c : MaterialCalculator) (dbm : DbManager)
    (m : Material) (a : ℚ) (r : CalculationResult) (c₀ : MaterialCalculator)
    (e : String) (hsave : c.auto_save = true)
    (hok : MaterialCalculator.calculate { c with db_manager := none } (.mat m) a =
      (.ok r, c₀))
    (hfail : dbm r = .error e) :
    MaterialCalculator.calculate { c with db_manager := some dbm } (.mat m) a =
      (.ok r, { c₀ with db_manager := some dbm }) ∧
    ({ c₀ with db_manager := some dbm } : MaterialCalculator).calculations_history =
      c.calculations_history ++ [r] ∧
    r ∈ ({ c₀ with db_manager := some dbm } : MaterialCalculator).calculations_history := by
  have hswap := calculate_db_swap dbm hok
  obtain ⟨-, -, -, -, -, -, -, -, -, -, -, -, hhist, -⟩ := calculate_ok_spec hok
  have hh : c₀.calculations_history = c.calculations_history ++ [r] := hhist hsave
  have hproj : ({ c₀ with db_manager := some dbm } : MaterialCalculator).calculations_history =
      c₀.calculations_history := rfl
  refine ⟨hswap, by rw [hproj, hh], ?_⟩
  rw [hproj, hh]
  exact List.mem_append_right _ (List.mem_singleton_self r)

/-- C4 witness: a collaborator that always raises does not change the result
of `calcSave.calculate wA 12` and the result is in the history. -/
theorem persistence_failure_swallowed_witness :
    MaterialCalculator.calculate { calcSave with db_manager := some dbFail } (.mat wA) 12 =
      (.ok rW1, { calcSaveAfter1 with db_manager := some dbFail }) ∧
    ({ calcSaveAfter1 with db_manager := some dbFail } : MaterialCalculator).calculations_history =
      calcSave.calculations_history ++ [rW1] ∧
    rW1 ∈ ({ calcSaveAfter1 with db_manager := some dbFail } : MaterialCalculator).calculations_history :=
  persistence_failure_swallowed calcSave dbFail wA 12 rW1 calcSaveAfter1
    "db unavailable" rfl calcSave_wA12_eval rfl

/-- Evaluation: the Wallpaper constructor builds `w0` with coverage 1 × 10. -/
theorem wallpaper_init_w0_eval : Wallpaper.init "w" 100 1 10 = .ok w0 := by
  unfold Wallpaper.init Material.base_init
  rw [if_neg (by norm_num), if_neg (by norm_num), if_neg (by norm_num),
     if_neg (by norm_num), if_neg (by norm_num), if_neg (by norm_num)]
  rw [show (1:ℚ) * 10 = 10 by norm_num]
  rfl

/-- Evaluation: setting `roll_width = 2` on `w0` succeeds and yields `w0Mut`. -/
theorem w0_set_roll_width_eval : w0.applySetter (.rollWidth 2) = .ok w0Mut := by
  show w0.set_roll_width 2 = .ok w0Mut
  unfold Material.set_roll_width w0
  dsimp only
  rw [if_neg (by norm_num), if_neg (by norm_num)]
  rfl

/-- C2 counterexample: `w0` is built by the constructor with coverage
10 = 1 × 10; the mutation `roll_width = 2` succeeds, yet `unit_coverage`
stays 10 while the variant coverage formula on the new geometry gives 20 —
the derived coverage IS stale after a setter call. -/
theorem setter_leaves_coverage_stale_cex :
    Wallpaper.init "w" 100 1 10 = .ok w0 ∧
    w0.applySetter (.rollWidth 2) = .ok w0Mut ∧
    w0Mut.unit_coverage = 10 ∧
    MatGeometry.coverageFormula w0Mut.geometry = 20 ∧
    (10 : ℚ) ≠ 20 := by
  refine ⟨wallpaper_init_w0_eval, w0_set_roll_width_eval, rfl, ?_, by norm_num⟩
  norm_num [w0Mut, MatGeometry.coverageFormula]

/-- C2 amended: a successful geometry setter re-validates and stores the new
geometry but never recomputes `unit_coverage` (nor touches name or price) —
the derived coverage is set only by the constructors, where it does equal
the variant formula. -/
theorem geometry_setters_leave_coverage (m m' : Material) (s : GeomSetter) :
    (m.applySetter s = .ok m' → m'.unit_coverage = m.unit_coverage ∧
      m'.name = m.name ∧ m'.price_per_unit = m.price_per_unit) ∧
    (∀ n p q1 q2 mw, Wallpaper.init n p q1 q2 = .ok mw →
      mw.unit_coverage = MatGeometry.coverageFormula mw.geometry) ∧
    (∀ n p k q1 q2 mt, Tile.init n p k q1 q2 = .ok mt →
      mt.unit_coverage = MatGeometry.coverageFormula mt.geometry) ∧
    (∀ n p k q1 q2 ml, Laminate.init n p k q1 q2 = .ok ml →
      ml.unit_coverage = MatGeometry.coverageFormula ml.geometry) := by
  refine ⟨?_, ?_, ?_, ?_⟩
  · intro h
    cases s <;>
      simp only [Material.applySetter, Material.set_roll_width, Material.set_roll_length,
        Material.set_tiles_per_box, Material.set_tile_width, Material.set_tile_height,
        Material.set_planks_per_pack, Material.set_plank_width,
        Material.set_plank_length] at h <;>
    · split at h
      · split at h
        · simp at h
        split at h
        · simp at h
        · simp only [Except.ok.injEq] at h
          subst h
          exact ⟨rfl, rfl, rfl⟩
      all_goals simp at h
  · intro n p q1 q2 mw h
    unfold Wallpaper.init Material.base_init at h
    split at h
    · simp at h
    split at h
    · simp at h
    split at h
    · simp at h
    split at h
    · simp at h
    split at h
    · simp at h
    split at h
    · simp at h
    · simp only [Except.ok.injEq] at h
      subst h
      simp [MatGeometry.coverageFormula]
  · intro n p k q1 q2 mt h
    unfold Tile.init Material.base_init at h
    split at h
    · simp at h
    split at h
    · simp at h
    split at h
    · simp at h
    split at h
    · simp at h
    split at h
    · simp at h
    split at h
    · simp at h
    split at h
    · simp at h
    split at h
    · simp at h
    · simp only [Except.ok.injEq] at h
      subst h
      simp [MatGeometry.coverageFormula]
  · intro n p k q1 q2 ml h
    unfold Laminate.init Material.base_init at h
    split at h
    · simp at h
    split at h
    · simp at h
    split at h
    · simp at h
    split at h
    · simp at h
    split at h
    · simp at h
    split at h
    · simp at h
    split at h
    · simp at h
    split at h
    · simp at h
    · simp only [Except.ok.injEq] at h
      subst h
      simp [MatGeometry.coverageFormula]

/-- C2 amended witness: the successful `roll_width = 2` mutation keeps
coverage 10, and the constructor had set coverage by the formula. -/
theorem geometry_setters_leave_coverage_witness :
    w0Mut.unit_coverage = w0.unit_coverage ∧
    w0.unit_coverage = MatGeometry.coverageFormula w0.geometry := by
  have h := geometry_setters_leave_coverage w0 w0Mut (.rollWidth 2)
  exact ⟨(h.1 w0_set_roll_width_eval).1, h.2.1 "w" 100 1 10 w0 wallpaper_init_w0_eval⟩

/-- C7: for a fixed material and a fixed remaining configuration, both
`units_needed` and `total_cost` of a successful `calculate` are monotone in
the accepted area (same reserve) and in the reserve percent (same area). -/
theorem calculate_monotone (c : MaterialCalculator) (m : Material)
    (a a1 a2 rp1 rp2 : ℚ) (r1 r2 s1 s2 : CalculationResult)
    (c1 c2 d1 d2 : MaterialCalculator) (hprice : 0 ≤ m.price_per_unit) :
    (a1 ≤ a2 → c.calculate (.mat m) a1 = (.ok r1, c1) →
      c.calculate (.mat m) a2 = (.ok r2, c2) →
      r1.units_needed ≤ r2.units_needed ∧ r1.total_cost ≤ r2.total_cost) ∧
    (rp1 ≤ rp2 →
      MaterialCalculator.calculate { c with reserve_percent := rp1 } (.mat m) a =
        (.ok s1, d1) →
      MaterialCalculator.calculate { c with reserve_percent := rp2 } (.mat m) a =
        (.ok s2, d2) →
      s1.units_needed ≤ s2.units_needed ∧ s1.total_cost ≤ s2.total_cost) := by
  constructor
  · intro ha hk1 hk2
    obtain ⟨-, -, -, har1, hu1, hcost1, -, hpos1, hup1, -, hres0, -, -, -⟩ :=
      calculate_ok_spec hk1
    obtain ⟨-, -, -, -, hu2, hcost2, -, -, -, -, -, -, -, -⟩ := calculate_ok_spec hk2
    have hfac : (0:ℚ) < 1 + c.reserve_percent / 100 := by linarith
    have ha1 : 0 < a1 := har1 ▸ hpos1
    have hnum1 : 0 < a1 * (1 + c.reserve_percent / 100) := mul_pos ha1 hfac
    have hcov : 0 < m.unit_coverage := by
      by_contra hle
      push_neg at hle
      have hdiv : a1 * (1 + c.reserve_percent / 100) / m.unit_coverage ≤ 0 :=
        div_nonpos_of_nonneg_of_nonpos hnum1.le hle
      have h0 : r1.units_needed ≤ 0 := by
        rw [hu1]
        exact Int.ceil_le.mpr (by exact_mod_cast hdiv)
      omega
    have humono : r1.units_needed ≤ r2.units_needed := by
      rw [hu1, hu2]
      apply Int.ceil_mono
      rw [div_le_div_iff_of_pos_right hcov]
      exact mul_le_mul_of_nonneg_right ha hfac.le
    refine ⟨humono, ?_⟩
    rw [hcost1, hcost2]
    apply pyRound_mono
    have hcast : (r1.units_needed : ℚ) ≤ (r2.units_needed : ℚ) := by
      exact_mod_cast humono
    exact mul_le_mul_of_nonneg_right hcast hprice
  · intro hrp hk1 hk2
    obtain ⟨-, -, -, har1, hu1, hcost1, -, hpos1, hup1, -, hres0, -, -, -⟩ :=
      calculate_ok_spec hk1
    obtain ⟨-, -, -, -, hu2, hcost2, -, -, -, -, -, -, -, -⟩ := calculate_ok_spec hk2
    dsimp only at hu1 hcost1 hu2 hcost2 hres0
    have hfac : (0:ℚ) < 1 + rp1 / 100 := by linarith
    have ha0 : 0 < a := har1 ▸ hpos1
    have hnum1 : 0 < a * (1 + rp1 / 100) := mul_pos ha0 hfac
    have hcov : 0 < m.unit_coverage := by
      by_contra hle
      push_neg at hle
      have hdiv : a * (1 + rp1 / 100) / m.unit_coverage ≤ 0 :=
        div_nonpos_of_nonneg_of_nonpos hnum1.le hle
      have h0 : s1.units_needed ≤ 0 := by
        rw [hu1]
        exact Int.ceil_le.mpr (by exact_mod_cast hdiv)
      omega
    have humono : s1.units_needed ≤ s2.units_needed := by
      rw [hu1, hu2]
      apply Int.ceil_mono
      rw [div_le_div_iff_of_pos_right hcov]
      have : 1 + rp1 / 100 ≤ 1 + rp2 / 100 := by linarith
      exact mul_le_mul_of_nonneg_left this ha0.le
    refine ⟨humono, ?_⟩
    rw [hcost1, hcost2]
    apply pyRound_mono
    have hcast : (s1.units_needed : ℚ) ≤ (s2.units_needed : ℚ) := by
      exact_mod_cast humono
    exact mul_le_mul_of_nonneg_right hcast hprice

/-- C7 witness: area 12 vs 20 at reserve 10 % gives 3 ≤ 5 rolls, 30 ≤ 50;
reserve 0 % vs 50 % at area 12 gives 3 ≤ 4 rolls, 30 ≤ 40. -/
theorem calculate_monotone_witness :
    (rW1.units_needed ≤ rW2.units_needed ∧ rW1.total_cost ≤ rW2.total_cost) ∧
    (rAr0.units_needed ≤ rRp50.units_needed ∧ rAr0.total_cost ≤ rRp50.total_cost) := by
  have h := calculate_monotone calcNoSave wA 12 12 20 0 50 rW1 rW2 rAr0 rRp50
    calcNoSave calcNoSave { calcNoSave with reserve_percent := 0 }
    { calcNoSave with reserve_percent := 50 } (by norm_num [wA])
  exact ⟨h.1 (by norm_num) calcNoSave_wA12_eval calcNoSave_wA20_eval,
         h.2 (by norm_num) calcRp0_wA12_eval calcRp50_wA12_eval⟩

/-- Evaluation: the comparison loop on `[wA, wB]` collects both results in
input order, leaving the non-saving calculator unchanged. -/
theorem calcZero_seq_eval :
    calcZero.calcSequence [wA, wB] 12 = (.ok [rAr0, rBr0], calcZero) := by
  simp only [MaterialCalculator.calcSequence, calcZero_wA12_eval, calcZero_wB12_eval]

/-- Evaluation: `compare_materials [wA, wB] 12` sorts the cost-9 result
before the cost-30 result. -/
theorem calcZero_compare_eval :
    calcZero.compare_materials [wA, wB] 12 = (.ok [rBr0, rAr0], calcZero) := by
  unfold MaterialCalculator.compare_materials
  rw [if_neg (by simp), calcZero_seq_eval]
  dsimp only
  have hle : costLe rAr0 rBr0 = false := by
    norm_num [costLe, rAr0, rBr0]
  simp [List.mergeSort, List.merge, hle]

/-- C5: `compare_materials` raises on the empty list; on success it ran one
`calculate` per material (in input order, threading the state) and returned
exactly the stable ascending-by-`total_cost` sort of those results: a
permutation, sorted, and preserving input order inside every equal-cost
class. -/
theorem compare_materials_sorted_stable (c : MaterialCalculator)
    (materials : List Material) (area : ℚ) :
    (materials = [] → ∃ e, c.compare_materials materials area = (.error e, c)) ∧
    (∀ rs c', c.compare_materials materials area = (.ok rs, c') →
      ∃ raw, c.calcSequence materials area = (.ok raw, c') ∧
        raw.length = materials.length ∧
        rs = raw.mergeSort costLe ∧
        rs.Perm raw ∧
        rs.Pairwise (fun x y => x.total_cost ≤ y.total_cost) ∧
        ∀ q : ℚ, rs.filter (fun x => decide (x.total_cost = q)) =
          raw.filter (fun x => decide (x.total_cost = q))) := by
  constructor
  · intro hempty
    subst hempty
    exact ⟨"materials list must not be empty", rfl⟩
  · intro rs c' h
    unfold MaterialCalculator.compare_materials at h
    split at h
    · simp at h
    · split at h
      · simp at h
      · rename_i raw c'' hseq
        simp only [Prod.mk.injEq, Except.ok.injEq] at h
        obtain ⟨hrs, hc⟩ := h
        subst hc
        subst hrs
        refine ⟨raw, hseq, calcSequence_ok_length hseq, rfl,
          List.mergeSort_perm raw costLe, ?_, ?_⟩
        · have hs := List.sorted_mergeSort costLe_trans costLe_total raw
          exact hs.imp (fun hxy => by
            simpa [costLe, decide_eq_true_eq] using hxy)
        · intro q
          have hTsub : List.Sublist (raw.filter (fun x => decide (x.total_cost = q))) raw :=
            List.filter_sublist raw
          have hTpair : (raw.filter (fun x => decide (x.total_cost = q))).Pairwise
              (fun x y => costLe x y) := by
            apply List.pairwise_of_forall_mem_list
            intro x hx y hy
            have hxq : x.total_cost = q := by
              simpa using (List.mem_filter.mp hx).2
            have hyq : y.total_cost = q := by
              simpa using (List.mem_filter.mp hy).2
            show costLe x y = true
            simp [costLe, hxq, hyq]
          have hstab := List.sublist_mergeSort costLe_trans costLe_total hTpair hTsub
          have hfil : (raw.filter (fun x => decide (x.total_cost = q))).filter
              (fun x => decide (x.total_cost = q)) =
              raw.filter (fun x => decide (x.total_cost = q)) :=
            List.filter_eq_self.mpr (by
              intro x hx
              exact (List.mem_filter.mp hx).2)
          have hsub2 := hstab.filter (fun x => decide (x.total_cost = q))
          rw [hfil] at hsub2
          have hperm := (List.mergeSort_perm raw costLe).filter
            (fun x => decide (x.total_cost = q))
          exact (hsub2.eq_of_length hperm.length_eq.symm).symm

/-- C5 witness: on `[wA, wB]` at area 12 the output `[rBr0, rAr0]` is sorted
by cost and is a permutation of the in-order results `[rAr0, rBr0]`. -/
theorem compare_materials_sorted_stable_witness :
    [rBr0, rAr0].Pairwise (fun x y => x.total_cost ≤ y.total_cost) ∧
    ([rBr0, rAr0] : List CalculationResult).Perm [rAr0, rBr0] := by
  obtain ⟨raw, hraw, -, -, hperm, hsorted, -⟩ :=
    (compare_materials_sorted_stable calcZero [wA, wB] 12).2 [rBr0, rAr0] calcZero
      calcZero_compare_eval
  have hseq2 := calcZero_seq_eval
  rw [hraw] at hseq2
  simp only [Prod.mk.injEq, Except.ok.injEq] at hseq2
  obtain ⟨hr, -⟩ := hseq2
  subst hr
  exact ⟨hsorted, hperm⟩

end Lab2
